import Mathlib

/-!
Verification development for the wmbusmeters slice consisting of
`src/meter_sharky_tch.cc` (the Sharky heat-meter driver) and `shell.cc`
(the process-spawning helper `invokeShell`).

Numeric measurement values (C++ `double`) are modelled as rationals `ℚ`:
every operation the claims touch is a lookup, a copy, or a multiplication
or division by a fixed rational conversion factor, so exact rational
arithmetic is a faithful model of the value flow.

The driver file calls into the rest of the repository (`dvparser`,
`units`, `meters_common_implementation`); those parts are not in the
visible slice and are modelled from the specification, each such
definition carrying a doc comment starting `Modelled from the spec:`.
-/

/-- The closed enumeration of physical quantities (spec §3 Quantity). -/
inductive Quantity
  | Energy
  | Volume
  | Flow
  | Power
  | Temperature
  | Time
  deriving DecidableEq, Repr

/-- The units used by the driver and its callers.  (The unit table lives in
the repository's `units` component, outside the visible slice; the members
here are the ones the driver file names plus the ones the spec's examples
use.)  Named `MUnit` because `Unit` is taken by Lean. -/
inductive MUnit
  | KWH
  | GJ
  | M3
  | L
  | W
  | KW
  | M3H
  | LH
  | C
  | F
  | K
  | Second
  | Hour
  deriving DecidableEq, Repr

/-- Modelled from the spec: every `Unit` is tagged with exactly one
`Quantity` (spec §3). -/
def MUnit.quantity : MUnit → Quantity
  | .KWH => .Energy
  | .GJ => .Energy
  | .M3 => .Volume
  | .L => .Volume
  | .W => .Power
  | .KW => .Power
  | .M3H => .Flow
  | .LH => .Flow
  | .C => .Temperature
  | .F => .Temperature
  | .K => .Temperature
  | .Second => .Time
  | .Hour => .Time

/-- Modelled from the spec: the multiplicative factor rebasing a unit to
its quantity's base unit (spec §4.4, table-driven converter).  Base units:
kWh, m³, W, m³/h, °C, s. -/
def MUnit.scale : MUnit → ℚ
  | .KWH => 1
  | .GJ => 2500 / 9
  | .M3 => 1
  | .L => 1 / 1000
  | .W => 1
  | .KW => 1000
  | .M3H => 1
  | .LH => 1 / 1000
  | .C => 1
  | .F => 5 / 9
  | .K => 1
  | .Second => 1
  | .Hour => 3600

/-- Modelled from the spec: the affine offset for quantities whose zero
points differ (spec §4.4); only the temperature units have one. -/
def MUnit.affineOffset : MUnit → ℚ
  | .F => -160 / 9
  | .K => -27315 / 100
  | _ => 0

/-- The faults of the error taxonomy that this slice can signal
(spec §7): a unit-quantity mismatch is a contract violation; looking up an
unknown output name fails the registry lookup. -/
inductive Fault
  | contractViolation
  | unknownOutput
  deriving DecidableEq, Repr

/-- The value computed on the successful path of `convert`: rebase from
`fromU` to the quantity's base unit, then forward-transform to `toU`
(spec §4.4). -/
def convValue (v : ℚ) (fromU toU : MUnit) : ℚ :=
  ((v * fromU.scale + fromU.affineOffset) - toU.affineOffset) / toU.scale

/-- Modelled from the spec: `convert(value, fromUnit, toUnit)` converts
between units sharing a physical quantity and signals the
contract-violation fault when the quantities differ (spec §4.4). -/
def convert (v : ℚ) (fromU toU : MUnit) : Except Fault ℚ :=
  if fromU.quantity = toU.quantity then .ok (convValue v fromU toU)
  else .error .contractViolation

/-- Modelled from the spec: `assertQuantity(u, q)` asserts that the
requested unit's quantity matches the output's declared quantity; a
mismatch is a contract violation that aborts the operation (spec §4.5,
§7). -/
def assertQuantity (u : MUnit) (q : Quantity) : Except Fault Unit :=
  if u.quantity = q then .ok () else .error .contractViolation

/-- The value-type tag of a data record (spec §3 measurementKind; the
driver only selects `Instantaneous`). -/
inductive MeasurementType
  | Instantaneous
  | Minimum
  | Maximum
  | AtError
  deriving DecidableEq, Repr

/-- The value-information (VIF) classification of a data record, the
quantity/scale family its value belongs to (spec §3 quantityTag).  The
members are the ones the driver file selects. -/
inductive ValueInformation
  | EnergyWh
  | Volume
  | VolumeFlow
  | PowerW
  | FlowTemperature
  | ReturnTemperature
  | OperatingTime
  | ExternalTemperature
  deriving DecidableEq, Repr

/-- Modelled from the spec: one parsed data record of a telegram as the
driver sees it in `t->values` — its addressing identity
(measurementKind, quantityTag, storage number, tariff), the decoded
scaled value in the natural base unit of its VIF family (spec §4.3:
"both encodings produce a quantity in its natural base unit"), and its
byte offset in the telegram (diagnostics only). -/
structure DVEntry where
  mtype : MeasurementType
  vif : ValueInformation
  storageNr : Nat
  tariff : Nat
  value : ℚ
  offset : Nat
  deriving DecidableEq, Repr

/-- A telegram as the driver consumes it: the ordered collection of
parsed data records (spec §3 Telegram). -/
structure Telegram where
  values : List DVEntry
  deriving DecidableEq, Repr

/-- Modelled from the spec: `findKey` together with `extractDVdouble`
(`dvparser`, not in the visible slice) realise the spec's
`resolve(telegram, measurementKind, quantityTag, tariff, storageNumber)`
(spec §4.2): a linear scan in telegram order returning the first record
whose measurement kind, VIF tag, storage number and tariff all match
exactly, or no-match; the record carries its decoded scaled value and
offset.  The argument order mirrors the C++ call sites:
`findKey(mt, vi, storagenr, tariffnr, …)`. -/
def findKey (mt : MeasurementType) (vi : ValueInformation)
    (storagenr tariffnr : Nat) (values : List DVEntry) : Option DVEntry :=
  values.find? fun e =>
    decide (e.mtype = mt ∧ e.vif = vi ∧ e.storageNr = storagenr ∧ e.tariff = tariffnr)

/-- One human-readable annotation attached to the telegram at a decoded
offset by `addMoreExplanation` (diagnostics for telegram dumps).  The
format string is kept verbatim; the value substituted for `%f` is carried
alongside. -/
structure Explanation where
  offset : Nat
  text : String
  value : ℚ
  deriving DecidableEq, Repr

/-- The driver's mutable state: one numeric field per declared
measurement (`meter_sharky_tch.cc` lines 40–47). -/
structure MeterSharkyTch where
  total_energy_kwh_ : ℚ
  total_volume_m3_ : ℚ
  volume_flow_m3h_ : ℚ
  power_w_ : ℚ
  flow_temperature_c_ : ℚ
  return_temperature_c_ : ℚ
  total_energy_tariff1_kwh_ : ℚ
  operating_time_t_ : ℚ
  deriving DecidableEq, Repr

/-- The freshly constructed driver: every field is value-initialised to
zero (`double … {}`, lines 40–47). -/
def MeterSharkyTch.init : MeterSharkyTch :=
  ⟨0, 0, 0, 0, 0, 0, 0, 0⟩

/-- Accessor `MeterSharkyTch::totalEnergyConsumption` (lines 101–105). -/
def MeterSharkyTch.totalEnergyConsumption (s : MeterSharkyTch) (u : MUnit) :
    Except Fault ℚ :=
  match assertQuantity u Quantity.Energy with
  | .error f => .error f
  | .ok _ => convert s.total_energy_kwh_ MUnit.KWH u

/-- Accessor `MeterSharkyTch::totalVolume` (lines 107–111). -/
def MeterSharkyTch.totalVolume (s : MeterSharkyTch) (u : MUnit) :
    Except Fault ℚ :=
  match assertQuantity u Quantity.Volume with
  | .error f => .error f
  | .ok _ => convert s.total_volume_m3_ MUnit.M3 u

/-- Accessor `MeterSharkyTch::volumeFlow` (lines 113–117). -/
def MeterSharkyTch.volumeFlow (s : MeterSharkyTch) (u : MUnit) :
    Except Fault ℚ :=
  match assertQuantity u Quantity.Flow with
  | .error f => .error f
  | .ok _ => convert s.volume_flow_m3h_ MUnit.M3H u

/-- Accessor `MeterSharkyTch::power` (lines 119–123).  Note the source converts
the stored `power_w_` from `Unit::KW`. -/
def MeterSharkyTch.power (s : MeterSharkyTch) (u : MUnit) :
    Except Fault ℚ :=
  match assertQuantity u Quantity.Power with
  | .error f => .error f
  | .ok _ => convert s.power_w_ MUnit.KW u

/-- Accessor `MeterSharkyTch::flowTemperature` (lines 125–129). -/
def MeterSharkyTch.flowTemperature (s : MeterSharkyTch) (u : MUnit) :
    Except Fault ℚ :=
  match assertQuantity u Quantity.Temperature with
  | .error f => .error f
  | .ok _ => convert s.flow_temperature_c_ MUnit.C u

/-- Accessor `MeterSharkyTch::returnTemperature` (lines 131–135). -/
def MeterSharkyTch.returnTemperature (s : MeterSharkyTch) (u : MUnit) :
    Except Fault ℚ :=
  match assertQuantity u Quantity.Temperature with
  | .error f => .error f
  | .ok _ => convert s.return_temperature_c_ MUnit.C u

/-- Accessor `MeterSharkyTch::totalEnergyConsumptionTariff1` (lines 137–141). -/
def MeterSharkyTch.totalEnergyConsumptionTariff1 (s : MeterSharkyTch) (u : MUnit) :
    Except Fault ℚ :=
  match assertQuantity u Quantity.Energy with
  | .error f => .error f
  | .ok _ => convert s.total_energy_tariff1_kwh_ MUnit.KWH u

/-- Accessor `MeterSharkyTch::operatingTime` (lines 143–147). -/
def MeterSharkyTch.operatingTime (s : MeterSharkyTch) (u : MUnit) :
    Except Fault ℚ :=
  match assertQuantity u Quantity.Time with
  | .error f => .error f
  | .ok _ => convert s.operating_time_t_ MUnit.Second u

/-- Decode pass `MeterSharkyTch::processContent` (lines 149–222): the eight guarded
blocks in source order.  Each block resolves its selector with `findKey`;
on a match it overwrites its field with the decoded value and appends the
`addMoreExplanation` annotation (format string verbatim); on no-match it
does nothing.  Returns the updated state and the annotations added. -/
def MeterSharkyTch.processContent (s : MeterSharkyTch) (t : Telegram) :
    MeterSharkyTch × List Explanation :=
  let p1 :=
    match findKey MeasurementType.Instantaneous ValueInformation.EnergyWh 0 0 t.values with
    | some e => ({ s with total_energy_kwh_ := e.value },
                 [⟨e.offset, " total energy consumption (%f kWh)", e.value⟩])
    | none => (s, [])
  let p2 :=
    match findKey MeasurementType.Instantaneous ValueInformation.Volume 0 0 t.values with
    | some e => ({ p1.1 with total_volume_m3_ := e.value },
                 p1.2 ++ [⟨e.offset, " total volume (%f ㎥)", e.value⟩])
    | none => p1
  let p3 :=
    match findKey MeasurementType.Instantaneous ValueInformation.VolumeFlow 0 0 t.values with
    | some e => ({ p2.1 with volume_flow_m3h_ := e.value },
                 p2.2 ++ [⟨e.offset, " volume flow (%f ㎥/h)", e.value⟩])
    | none => p2
  let p4 :=
    match findKey MeasurementType.Instantaneous ValueInformation.PowerW 0 0 t.values with
    | some e => ({ p3.1 with power_w_ := e.value },
                 p3.2 ++ [⟨e.offset, " power (%f W)", e.value⟩])
    | none => p3
  let p5 :=
    match findKey MeasurementType.Instantaneous ValueInformation.FlowTemperature 0 0 t.values with
    | some e => ({ p4.1 with flow_temperature_c_ := e.value },
                 p4.2 ++ [⟨e.offset, " flow temperature (%f °C)", e.value⟩])
    | none => p4
  let p6 :=
    match findKey MeasurementType.Instantaneous ValueInformation.ReturnTemperature 0 0 t.values with
    | some e => ({ p5.1 with return_temperature_c_ := e.value },
                 p5.2 ++ [⟨e.offset, " return temperature (%f °C)", e.value⟩])
    | none => p5
  let p7 :=
    match findKey MeasurementType.Instantaneous ValueInformation.EnergyWh 0 1 t.values with
    | some e => ({ p6.1 with total_energy_tariff1_kwh_ := e.value },
                 p6.2 ++ [⟨e.offset, " total energy tariff 1 (%f kwh)", e.value⟩])
    | none => p6
  let p8 :=
    match findKey MeasurementType.Instantaneous ValueInformation.OperatingTime 0 0 t.values with
    | some e => ({ p7.1 with operating_time_t_ := e.value },
                 p7.2 ++ [⟨e.offset, " operating time (%f seconds)", e.value⟩])
    | none => p7
  p8

/-- The value a selector contributes to its field: the decoded value on a
match, the previous field value on no-match. -/
def selOrKeep : Option DVEntry → ℚ → ℚ
  | some e, _ => e.value
  | none, v => v

/-- The state part of `processContent`, fieldwise: each stored field is
governed solely by its own selector's `findKey` result. -/
theorem processContent_state (s : MeterSharkyTch) (t : Telegram) :
    (s.processContent t).1 =
      { total_energy_kwh_ :=
          selOrKeep (findKey .Instantaneous .EnergyWh 0 0 t.values) s.total_energy_kwh_
        total_volume_m3_ :=
          selOrKeep (findKey .Instantaneous .Volume 0 0 t.values) s.total_volume_m3_
        volume_flow_m3h_ :=
          selOrKeep (findKey .Instantaneous .VolumeFlow 0 0 t.values) s.volume_flow_m3h_
        power_w_ :=
          selOrKeep (findKey .Instantaneous .PowerW 0 0 t.values) s.power_w_
        flow_temperature_c_ :=
          selOrKeep (findKey .Instantaneous .FlowTemperature 0 0 t.values) s.flow_temperature_c_
        return_temperature_c_ :=
          selOrKeep (findKey .Instantaneous .ReturnTemperature 0 0 t.values) s.return_temperature_c_
        total_energy_tariff1_kwh_ :=
          selOrKeep (findKey .Instantaneous .EnergyWh 0 1 t.values) s.total_energy_tariff1_kwh_
        operating_time_t_ :=
          selOrKeep (findKey .Instantaneous .OperatingTime 0 0 t.values) s.operating_time_t_ } := by
  unfold MeterSharkyTch.processContent
  cases findKey MeasurementType.Instantaneous ValueInformation.EnergyWh 0 0 t.values <;>
    cases findKey MeasurementType.Instantaneous ValueInformation.Volume 0 0 t.values <;>
    cases findKey MeasurementType.Instantaneous ValueInformation.VolumeFlow 0 0 t.values <;>
    cases findKey MeasurementType.Instantaneous ValueInformation.PowerW 0 0 t.values <;>
    cases findKey MeasurementType.Instantaneous ValueInformation.FlowTemperature 0 0 t.values <;>
    cases findKey MeasurementType.Instantaneous ValueInformation.ReturnTemperature 0 0 t.values <;>
    cases findKey MeasurementType.Instantaneous ValueInformation.EnergyWh 0 1 t.values <;>
    cases findKey MeasurementType.Instantaneous ValueInformation.OperatingTime 0 0 t.values <;>
    rfl

/-- Field lemma: the total-energy slot is governed by its selector. -/
theorem processContent_total_energy (s : MeterSharkyTch) (t : Telegram) :
    (s.processContent t).1.total_energy_kwh_ =
      selOrKeep (findKey .Instantaneous .EnergyWh 0 0 t.values) s.total_energy_kwh_ := by
  rw [processContent_state]

/-- Field lemma: the total-volume slot is governed by its selector. -/
theorem processContent_total_volume (s : MeterSharkyTch) (t : Telegram) :
    (s.processContent t).1.total_volume_m3_ =
      selOrKeep (findKey .Instantaneous .Volume 0 0 t.values) s.total_volume_m3_ := by
  rw [processContent_state]

/-- Field lemma: the volume-flow slot is governed by its selector. -/
theorem processContent_volume_flow (s : MeterSharkyTch) (t : Telegram) :
    (s.processContent t).1.volume_flow_m3h_ =
      selOrKeep (findKey .Instantaneous .VolumeFlow 0 0 t.values) s.volume_flow_m3h_ := by
  rw [processContent_state]

/-- Field lemma: the power slot is governed by its selector. -/
theorem processContent_power (s : MeterSharkyTch) (t : Telegram) :
    (s.processContent t).1.power_w_ =
      selOrKeep (findKey .Instantaneous .PowerW 0 0 t.values) s.power_w_ := by
  rw [processContent_state]

/-- Field lemma: the flow-temperature slot is governed by its selector. -/
theorem processContent_flow_temperature (s : MeterSharkyTch) (t : Telegram) :
    (s.processContent t).1.flow_temperature_c_ =
      selOrKeep (findKey .Instantaneous .FlowTemperature 0 0 t.values) s.flow_temperature_c_ := by
  rw [processContent_state]

/-- Field lemma: the return-temperature slot is governed by its selector. -/
theorem processContent_return_temperature (s : MeterSharkyTch) (t : Telegram) :
    (s.processContent t).1.return_temperature_c_ =
      selOrKeep (findKey .Instantaneous .ReturnTemperature 0 0 t.values) s.return_temperature_c_ := by
  rw [processContent_state]

/-- Field lemma: the tariff-1 energy slot is governed by its selector
(storage 0, tariff 1). -/
theorem processContent_tariff1_energy (s : MeterSharkyTch) (t : Telegram) :
    (s.processContent t).1.total_energy_tariff1_kwh_ =
      selOrKeep (findKey .Instantaneous .EnergyWh 0 1 t.values) s.total_energy_tariff1_kwh_ := by
  rw [processContent_state]

/-- Field lemma: the operating-time slot is governed by its selector. -/
theorem processContent_operating_time (s : MeterSharkyTch) (t : Telegram) :
    (s.processContent t).1.operating_time_t_ =
      selOrKeep (findKey .Instantaneous .OperatingTime 0 0 t.values) s.operating_time_t_ := by
  rw [processContent_state]

/-- One named output of the driver (spec §3 PrintSpec): name, declared
quantity, accessor, description, and the two visibility flags of
`addPrint` (field listing, json listing). -/
structure PrintSpec where
  name : String
  quantity : Quantity
  getter : MeterSharkyTch → MUnit → Except Fault ℚ
  description : String
  field : Bool
  json : Bool

/-- The print registry built by the constructor `MeterSharkyTch(MeterInfo&)`
(lines 51–95): the eight `addPrint` calls, in source order, each binding a
name and declared quantity to the accessor the lambda calls. -/
def MeterSharkyTch.prints : List PrintSpec :=
  [⟨"total_energy_consumption", .Energy, MeterSharkyTch.totalEnergyConsumption,
    "The total energy consumption recorded by this meter.", true, true⟩,
   ⟨"total_volume", .Volume, MeterSharkyTch.totalVolume,
    "The total volume recorded by this meter.", true, true⟩,
   ⟨"volume_flow", .Flow, MeterSharkyTch.volumeFlow,
    "The current flow.", true, true⟩,
   ⟨"power", .Power, MeterSharkyTch.power,
    "The power.", true, true⟩,
   ⟨"flow_temperature", .Temperature, MeterSharkyTch.flowTemperature,
    "The flow temperature.", true, true⟩,
   ⟨"return_temperature", .Temperature, MeterSharkyTch.returnTemperature,
    "The return temperature.", true, true⟩,
   ⟨"total_energy_consumption_tariff1", .Energy, MeterSharkyTch.totalEnergyConsumptionTariff1,
    "The total energy consumption recorded by this meter on tariff 1.", true, true⟩,
   ⟨"operating_time", .Time, MeterSharkyTch.operatingTime,
    "The temperature difference.", true, true⟩]

/-- Modelled from the spec: `getPrint(name, unit)` looks up the
`PrintSpec` by name, asserts that the requested unit's quantity equals the
spec's declared quantity (contract violation otherwise), and returns the
stored raw value converted by the output's accessor (spec §4.5). -/
def getPrint (s : MeterSharkyTch) (name : String) (u : MUnit) :
    Except Fault ℚ :=
  match MeterSharkyTch.prints.find? (fun ps => ps.name == name) with
  | some ps => if u.quantity = ps.quantity then ps.getter s u
               else .error .contractViolation
  | none => .error .unknownOutput

instance {ε α : Type} [DecidableEq ε] [DecidableEq α] :
    DecidableEq (Except ε α)
  | Except.error a, Except.error b =>
    decidable_of_iff (a = b) ⟨fun h => by rw [h], fun h => by injection h⟩
  | Except.error _, Except.ok _ => isFalse fun h => Except.noConfusion h
  | Except.ok _, Except.error _ => isFalse fun h => Except.noConfusion h
  | Except.ok a, Except.ok b =>
    decidable_of_iff (a = b) ⟨fun h => by rw [h], fun h => by injection h⟩

/-- C1: For every telegram passed to the driver's `processContent` and
every one of the eight declared (field, selector) pairs: when the selector
(measurement kind, VIF tag, storage number, tariff) finds no matching
record the stored field keeps exactly its previous value, and when it
finds a match the field is overwritten with the newly decoded scaled
value. -/
theorem sharky_processContent_selector_update (s : MeterSharkyTch) (t : Telegram) :
    ((findKey .Instantaneous .EnergyWh 0 0 t.values = none →
        (s.processContent t).1.total_energy_kwh_ = s.total_energy_kwh_) ∧
      ∀ e, findKey .Instantaneous .EnergyWh 0 0 t.values = some e →
        (s.processContent t).1.total_energy_kwh_ = e.value) ∧
    ((findKey .Instantaneous .Volume 0 0 t.values = none →
        (s.processContent t).1.total_volume_m3_ = s.total_volume_m3_) ∧
      ∀ e, findKey .Instantaneous .Volume 0 0 t.values = some e →
        (s.processContent t).1.total_volume_m3_ = e.value) ∧
    ((findKey .Instantaneous .VolumeFlow 0 0 t.values = none →
        (s.processContent t).1.volume_flow_m3h_ = s.volume_flow_m3h_) ∧
      ∀ e, findKey .Instantaneous .VolumeFlow 0 0 t.values = some e →
        (s.processContent t).1.volume_flow_m3h_ = e.value) ∧
    ((findKey .Instantaneous .PowerW 0 0 t.values = none →
        (s.processContent t).1.power_w_ = s.power_w_) ∧
      ∀ e, findKey .Instantaneous .PowerW 0 0 t.values = some e →
        (s.processContent t).1.power_w_ = e.value) ∧
    ((findKey .Instantaneous .FlowTemperature 0 0 t.values = none →
        (s.processContent t).1.flow_temperature_c_ = s.flow_temperature_c_) ∧
      ∀ e, findKey .Instantaneous .FlowTemperature 0 0 t.values = some e →
        (s.processContent t).1.flow_temperature_c_ = e.value) ∧
    ((findKey .Instantaneous .ReturnTemperature 0 0 t.values = none →
        (s.processContent t).1.return_temperature_c_ = s.return_temperature_c_) ∧
      ∀ e, findKey .Instantaneous .ReturnTemperature 0 0 t.values = some e →
        (s.processContent t).1.return_temperature_c_ = e.value) ∧
    ((findKey .Instantaneous .EnergyWh 0 1 t.values = none →
        (s.processContent t).1.total_energy_tariff1_kwh_ = s.total_energy_tariff1_kwh_) ∧
      ∀ e, findKey .Instantaneous .EnergyWh 0 1 t.values = some e →
        (s.processContent t).1.total_energy_tariff1_kwh_ = e.value) ∧
    ((findKey .Instantaneous .OperatingTime 0 0 t.values = none →
        (s.processContent t).1.operating_time_t_ = s.operating_time_t_) ∧
      ∀ e, findKey .Instantaneous .OperatingTime 0 0 t.values = some e →
        (s.processContent t).1.operating_time_t_ = e.value) :=
  ⟨⟨fun h => by rw [processContent_total_energy, h]; rfl,
    fun e h => by rw [processContent_total_energy, h]; rfl⟩,
   ⟨fun h => by rw [processContent_total_volume, h]; rfl,
    fun e h => by rw [processContent_total_volume, h]; rfl⟩,
   ⟨fun h => by rw [processContent_volume_flow, h]; rfl,
    fun e h => by rw [processContent_volume_flow, h]; rfl⟩,
   ⟨fun h => by rw [processContent_power, h]; rfl,
    fun e h => by rw [processContent_power, h]; rfl⟩,
   ⟨fun h => by rw [processContent_flow_temperature, h]; rfl,
    fun e h => by rw [processContent_flow_temperature, h]; rfl⟩,
   ⟨fun h => by rw [processContent_return_temperature, h]; rfl,
    fun e h => by rw [processContent_return_temperature, h]; rfl⟩,
   ⟨fun h => by rw [processContent_tariff1_energy, h]; rfl,
    fun e h => by rw [processContent_tariff1_energy, h]; rfl⟩,
   ⟨fun h => by rw [processContent_operating_time, h]; rfl,
    fun e h => by rw [processContent_operating_time, h]; rfl⟩⟩

/-- Witness for C1 at the spec's T2 scenario: decoding a telegram that
carries only an energy record (121 kWh) updates `total_energy_kwh_` to
121 and leaves `return_temperature_c_` unchanged. -/
theorem sharky_processContent_selector_update_witness :
    (MeterSharkyTch.init.processContent
        ⟨[⟨.Instantaneous, .EnergyWh, 0, 0, 121, 15⟩]⟩).1.total_energy_kwh_ = 121 ∧
    (MeterSharkyTch.init.processContent
        ⟨[⟨.Instantaneous, .EnergyWh, 0, 0, 121, 15⟩]⟩).1.return_temperature_c_ =
      MeterSharkyTch.init.return_temperature_c_ :=
  ⟨(sharky_processContent_selector_update MeterSharkyTch.init
        ⟨[⟨.Instantaneous, .EnergyWh, 0, 0, 121, 15⟩]⟩).1.2
      ⟨.Instantaneous, .EnergyWh, 0, 0, 121, 15⟩ (by decide),
   (sharky_processContent_selector_update MeterSharkyTch.init
        ⟨[⟨.Instantaneous, .EnergyWh, 0, 0, 121, 15⟩]⟩).2.2.2.2.2.1.1 (by decide)⟩

/-- C5: a freshly constructed driver has every one of the eight stored
measurement fields equal to zero, and across any two successive telegrams
each field holds the last decoded value: a match in the later telegram
overwrites the field, and on no-match the field keeps its value from the
earlier decode — absence in a later telegram is never re-inferred as
zero. -/
theorem sharky_init_zero_and_persistence :
    (MeterSharkyTch.init.total_energy_kwh_ = 0 ∧
      MeterSharkyTch.init.total_volume_m3_ = 0 ∧
      MeterSharkyTch.init.volume_flow_m3h_ = 0 ∧
      MeterSharkyTch.init.power_w_ = 0 ∧
      MeterSharkyTch.init.flow_temperature_c_ = 0 ∧
      MeterSharkyTch.init.return_temperature_c_ = 0 ∧
      MeterSharkyTch.init.total_energy_tariff1_kwh_ = 0 ∧
      MeterSharkyTch.init.operating_time_t_ = 0) ∧
    ∀ (s : MeterSharkyTch) (t₁ t₂ : Telegram),
      ((findKey .Instantaneous .EnergyWh 0 0 t₂.values = none →
          ((s.processContent t₁).1.processContent t₂).1.total_energy_kwh_ =
            (s.processContent t₁).1.total_energy_kwh_) ∧
        ∀ e, findKey .Instantaneous .EnergyWh 0 0 t₂.values = some e →
          ((s.processContent t₁).1.processContent t₂).1.total_energy_kwh_ = e.value) ∧
      ((findKey .Instantaneous .Volume 0 0 t₂.values = none →
          ((s.processContent t₁).1.processContent t₂).1.total_volume_m3_ =
            (s.processContent t₁).1.total_volume_m3_) ∧
        ∀ e, findKey .Instantaneous .Volume 0 0 t₂.values = some e →
          ((s.processContent t₁).1.processContent t₂).1.total_volume_m3_ = e.value) ∧
      ((findKey .Instantaneous .VolumeFlow 0 0 t₂.values = none →
          ((s.processContent t₁).1.processContent t₂).1.volume_flow_m3h_ =
            (s.processContent t₁).1.volume_flow_m3h_) ∧
        ∀ e, findKey .Instantaneous .VolumeFlow 0 0 t₂.values = some e →
          ((s.processContent t₁).1.processContent t₂).1.volume_flow_m3h_ = e.value) ∧
      ((findKey .Instantaneous .PowerW 0 0 t₂.values = none →
          ((s.processContent t₁).1.processContent t₂).1.power_w_ =
            (s.processContent t₁).1.power_w_) ∧
        ∀ e, findKey .Instantaneous .PowerW 0 0 t₂.values = some e →
          ((s.processContent t₁).1.processContent t₂).1.power_w_ = e.value) ∧
      ((findKey .Instantaneous .FlowTemperature 0 0 t₂.values = none →
          ((s.processContent t₁).1.processContent t₂).1.flow_temperature_c_ =
            (s.processContent t₁).1.flow_temperature_c_) ∧
        ∀ e, findKey .Instantaneous .FlowTemperature 0 0 t₂.values = some e →
          ((s.processContent t₁).1.processContent t₂).1.flow_temperature_c_ = e.value) ∧
      ((findKey .Instantaneous .ReturnTemperature 0 0 t₂.values = none →
          ((s.processContent t₁).1.processContent t₂).1.return_temperature_c_ =
            (s.processContent t₁).1.return_temperature_c_) ∧
        ∀ e, findKey .Instantaneous .ReturnTemperature 0 0 t₂.values = some e →
          ((s.processContent t₁).1.processContent t₂).1.return_temperature_c_ = e.value) ∧
      ((findKey .Instantaneous .EnergyWh 0 1 t₂.values = none →
          ((s.processContent t₁).1.processContent t₂).1.total_energy_tariff1_kwh_ =
            (s.processContent t₁).1.total_energy_tariff1_kwh_) ∧
        ∀ e, findKey .Instantaneous .EnergyWh 0 1 t₂.values = some e →
          ((s.processContent t₁).1.processContent t₂).1.total_energy_tariff1_kwh_ = e.value) ∧
      ((findKey .Instantaneous .OperatingTime 0 0 t₂.values = none →
          ((s.processContent t₁).1.processContent t₂).1.operating_time_t_ =
            (s.processContent t₁).1.operating_time_t_) ∧
        ∀ e, findKey .Instantaneous .OperatingTime 0 0 t₂.values = some e →
          ((s.processContent t₁).1.processContent t₂).1.operating_time_t_ = e.value) :=
  ⟨⟨rfl, rfl, rfl, rfl, rfl, rfl, rfl, rfl⟩,
   fun _ t₁ t₂ =>
    ⟨⟨fun h => by rw [processContent_total_energy _ t₂, h]; rfl,
      fun e h => by rw [processContent_total_energy _ t₂, h]; rfl⟩,
     ⟨fun h => by rw [processContent_total_volume _ t₂, h]; rfl,
      fun e h => by rw [processContent_total_volume _ t₂, h]; rfl⟩,
     ⟨fun h => by rw [processContent_volume_flow _ t₂, h]; rfl,
      fun e h => by rw [processContent_volume_flow _ t₂, h]; rfl⟩,
     ⟨fun h => by rw [processContent_power _ t₂, h]; rfl,
      fun e h => by rw [processContent_power _ t₂, h]; rfl⟩,
     ⟨fun h => by rw [processContent_flow_temperature _ t₂, h]; rfl,
      fun e h => by rw [processContent_flow_temperature _ t₂, h]; rfl⟩,
     ⟨fun h => by rw [processContent_return_temperature _ t₂, h]; rfl,
      fun e h => by rw [processContent_return_temperature _ t₂, h]; rfl⟩,
     ⟨fun h => by rw [processContent_tariff1_energy _ t₂, h]; rfl,
      fun e h => by rw [processContent_tariff1_energy _ t₂, h]; rfl⟩,
     ⟨fun h => by rw [processContent_operating_time _ t₂, h]; rfl,
      fun e h => by rw [processContent_operating_time _ t₂, h]; rfl⟩⟩⟩

/-- Witness for C5 at the spec's T1/T2 scenario: T1 carries energy 120.5
kWh and return temperature 18.4 °C, T2 carries only energy 121 kWh; after
decoding both, the energy field holds 121 and the return-temperature
field still holds its value from T1. -/
theorem sharky_init_zero_and_persistence_witness :
    MeterSharkyTch.init.total_energy_kwh_ = 0 ∧
    ((MeterSharkyTch.init.processContent
          ⟨[⟨.Instantaneous, .EnergyWh, 0, 0, 241 / 2, 15⟩,
            ⟨.Instantaneous, .ReturnTemperature, 0, 0, 92 / 5, 42⟩]⟩).1.processContent
        ⟨[⟨.Instantaneous, .EnergyWh, 0, 0, 121, 15⟩]⟩).1.total_energy_kwh_ = 121 ∧
    ((MeterSharkyTch.init.processContent
          ⟨[⟨.Instantaneous, .EnergyWh, 0, 0, 241 / 2, 15⟩,
            ⟨.Instantaneous, .ReturnTemperature, 0, 0, 92 / 5, 42⟩]⟩).1.processContent
        ⟨[⟨.Instantaneous, .EnergyWh, 0, 0, 121, 15⟩]⟩).1.return_temperature_c_ =
      (MeterSharkyTch.init.processContent
          ⟨[⟨.Instantaneous, .EnergyWh, 0, 0, 241 / 2, 15⟩,
            ⟨.Instantaneous, .ReturnTemperature, 0, 0, 92 / 5, 42⟩]⟩).1.return_temperature_c_ :=
  ⟨sharky_init_zero_and_persistence.1.1,
   (sharky_init_zero_and_persistence.2 MeterSharkyTch.init
        ⟨[⟨.Instantaneous, .EnergyWh, 0, 0, 241 / 2, 15⟩,
          ⟨.Instantaneous, .ReturnTemperature, 0, 0, 92 / 5, 42⟩]⟩
        ⟨[⟨.Instantaneous, .EnergyWh, 0, 0, 121, 15⟩]⟩).1.2
      ⟨.Instantaneous, .EnergyWh, 0, 0, 121, 15⟩ (by decide),
   (sharky_init_zero_and_persistence.2 MeterSharkyTch.init
        ⟨[⟨.Instantaneous, .EnergyWh, 0, 0, 241 / 2, 15⟩,
          ⟨.Instantaneous, .ReturnTemperature, 0, 0, 92 / 5, 42⟩]⟩
        ⟨[⟨.Instantaneous, .EnergyWh, 0, 0, 121, 15⟩]⟩).2.2.2.2.2.1.1 (by decide)⟩

/-- The duplicate-tariff telegram of the spec's scenario: an energy record
at tariff 0 with value 50.0 and a second energy record at tariff 1 with
value 5.0. -/
def tariffTelegram : Telegram :=
  ⟨[⟨.Instantaneous, .EnergyWh, 0, 0, 50, 15⟩,
    ⟨.Instantaneous, .EnergyWh, 0, 1, 5, 48⟩]⟩

/-- C4: on a telegram with an energy record at tariff 0 (value 50.0) and a
second energy record at tariff 1 (value 5.0), `processContent` stores 50
into the total-energy field and 5 into the tariff-1 field, and the two
named outputs `total_energy_consumption` and
`total_energy_consumption_tariff1` report 50 and 5 respectively. -/
theorem sharky_tariff_disambiguation :
    (MeterSharkyTch.init.processContent tariffTelegram).1.total_energy_kwh_ = 50 ∧
    (MeterSharkyTch.init.processContent tariffTelegram).1.total_energy_tariff1_kwh_ = 5 ∧
    (MeterSharkyTch.init.processContent tariffTelegram).1.totalEnergyConsumption
      MUnit.KWH = .ok 50 ∧
    (MeterSharkyTch.init.processContent tariffTelegram).1.totalEnergyConsumptionTariff1
      MUnit.KWH = .ok 5 ∧
    getPrint (MeterSharkyTch.init.processContent tariffTelegram).1
      ("total_energy_consumption") MUnit.KWH = .ok 50 ∧
    getPrint (MeterSharkyTch.init.processContent tariffTelegram).1
      ("total_energy_consumption_tariff1") MUnit.KWH = .ok 5 := by
  have h0 : (MeterSharkyTch.init.processContent tariffTelegram).1.total_energy_kwh_ = 50 := by
    decide
  have h1 : (MeterSharkyTch.init.processContent tariffTelegram).1.total_energy_tariff1_kwh_ = 5 := by
    decide
  refine ⟨h0, h1, ?_, ?_, ?_, ?_⟩ <;>
    simp [getPrint, MeterSharkyTch.prints, List.find?,
      MeterSharkyTch.totalEnergyConsumption, MeterSharkyTch.totalEnergyConsumptionTariff1,
      assertQuantity, convert, convValue, MUnit.quantity, MUnit.scale, MUnit.affineOffset,
      h0, h1]

/-- C3: every one of the driver's eight output accessors first asserts
that the requested unit's quantity equals the output's declared quantity:
on a mismatch it signals the contract-violation fault before any
conversion and never returns a number, and on a match it returns the
stored raw value converted from the output's native unit to the requested
unit. -/
theorem sharky_accessor_quantity_guard (s : MeterSharkyTch) (u : MUnit) :
    ((u.quantity ≠ Quantity.Energy →
        s.totalEnergyConsumption u = .error .contractViolation) ∧
      (u.quantity = Quantity.Energy →
        s.totalEnergyConsumption u = .ok (convValue s.total_energy_kwh_ MUnit.KWH u))) ∧
    ((u.quantity ≠ Quantity.Volume →
        s.totalVolume u = .error .contractViolation) ∧
      (u.quantity = Quantity.Volume →
        s.totalVolume u = .ok (convValue s.total_volume_m3_ MUnit.M3 u))) ∧
    ((u.quantity ≠ Quantity.Flow →
        s.volumeFlow u = .error .contractViolation) ∧
      (u.quantity = Quantity.Flow →
        s.volumeFlow u = .ok (convValue s.volume_flow_m3h_ MUnit.M3H u))) ∧
    ((u.quantity ≠ Quantity.Power →
        s.power u = .error .contractViolation) ∧
      (u.quantity = Quantity.Power →
        s.power u = .ok (convValue s.power_w_ MUnit.KW u))) ∧
    ((u.quantity ≠ Quantity.Temperature →
        s.flowTemperature u = .error .contractViolation) ∧
      (u.quantity = Quantity.Temperature →
        s.flowTemperature u = .ok (convValue s.flow_temperature_c_ MUnit.C u))) ∧
    ((u.quantity ≠ Quantity.Temperature →
        s.returnTemperature u = .error .contractViolation) ∧
      (u.quantity = Quantity.Temperature →
        s.returnTemperature u = .ok (convValue s.return_temperature_c_ MUnit.C u))) ∧
    ((u.quantity ≠ Quantity.Energy →
        s.totalEnergyConsumptionTariff1 u = .error .contractViolation) ∧
      (u.quantity = Quantity.Energy →
        s.totalEnergyConsumptionTariff1 u =
          .ok (convValue s.total_energy_tariff1_kwh_ MUnit.KWH u))) ∧
    ((u.quantity ≠ Quantity.Time →
        s.operatingTime u = .error .contractViolation) ∧
      (u.quantity = Quantity.Time →
        s.operatingTime u = .ok (convValue s.operating_time_t_ MUnit.Second u))) :=
  ⟨⟨fun h => by simp [MeterSharkyTch.totalEnergyConsumption, assertQuantity, h],
    fun h => by
      have hn : MUnit.quantity MUnit.KWH = Quantity.Energy := rfl
      simp [MeterSharkyTch.totalEnergyConsumption, assertQuantity, convert, hn, h]⟩,
   ⟨fun h => by simp [MeterSharkyTch.totalVolume, assertQuantity, h],
    fun h => by
      have hn : MUnit.quantity MUnit.M3 = Quantity.Volume := rfl
      simp [MeterSharkyTch.totalVolume, assertQuantity, convert, hn, h]⟩,
   ⟨fun h => by simp [MeterSharkyTch.volumeFlow, assertQuantity, h],
    fun h => by
      have hn : MUnit.quantity MUnit.M3H = Quantity.Flow := rfl
      simp [MeterSharkyTch.volumeFlow, assertQuantity, convert, hn, h]⟩,
   ⟨fun h => by simp [MeterSharkyTch.power, assertQuantity, h],
    fun h => by
      have hn : MUnit.quantity MUnit.KW = Quantity.Power := rfl
      simp [MeterSharkyTch.power, assertQuantity, convert, hn, h]⟩,
   ⟨fun h => by simp [MeterSharkyTch.flowTemperature, assertQuantity, h],
    fun h => by
      have hn : MUnit.quantity MUnit.C = Quantity.Temperature := rfl
      simp [MeterSharkyTch.flowTemperature, assertQuantity, convert, hn, h]⟩,
   ⟨fun h => by simp [MeterSharkyTch.returnTemperature, assertQuantity, h],
    fun h => by
      have hn : MUnit.quantity MUnit.C = Quantity.Temperature := rfl
      simp [MeterSharkyTch.returnTemperature, assertQuantity, convert, hn, h]⟩,
   ⟨fun h => by simp [MeterSharkyTch.totalEnergyConsumptionTariff1, assertQuantity, h],
    fun h => by
      have hn : MUnit.quantity MUnit.KWH = Quantity.Energy := rfl
      simp [MeterSharkyTch.totalEnergyConsumptionTariff1, assertQuantity, convert, hn, h]⟩,
   ⟨fun h => by simp [MeterSharkyTch.operatingTime, assertQuantity, h],
    fun h => by
      have hn : MUnit.quantity MUnit.Second = Quantity.Time := rfl
      simp [MeterSharkyTch.operatingTime, assertQuantity, convert, hn, h]⟩⟩

/-- Witness for C3: reading the energy output in °C (a Temperature unit)
signals the contract violation, and reading it in kWh returns the
converted stored value. -/
theorem sharky_accessor_quantity_guard_witness :
    MeterSharkyTch.init.totalEnergyConsumption MUnit.C = .error .contractViolation ∧
    MeterSharkyTch.init.totalEnergyConsumption MUnit.KWH =
      .ok (convValue MeterSharkyTch.init.total_energy_kwh_ MUnit.KWH MUnit.KWH) :=
  ⟨(sharky_accessor_quantity_guard MeterSharkyTch.init MUnit.C).1.1 (by decide),
   (sharky_accessor_quantity_guard MeterSharkyTch.init MUnit.KWH).1.2 (by decide)⟩

/-- A telegram with a single power record (VIF "Power W"), whose decoded
scaled value — in the natural base unit of that VIF family, watts — is
500. -/
def powerTelegram : Telegram :=
  ⟨[⟨.Instantaneous, .PowerW, 0, 0, 500, 35⟩]⟩

/-- The power output as the claim states it: the stored raw power value
is in watts (VIF "Power W" decodes to its natural base unit), so
`power(u)` is `convert(stored_power_in_watts, W, u)`.  Stated from the
claim's words for comparison against the source's
`MeterSharkyTch.power`. -/
def powerPerClaim (s : MeterSharkyTch) (u : MUnit) : Except Fault ℚ :=
  match assertQuantity u Quantity.Power with
  | .error f => .error f
  | .ok _ => convert s.power_w_ MUnit.W u

/-- C2 (code bug): the power record decodes to watts (the driver's own
field is `power_w_` and its explanation prints " power (%f W)"), but
`MeterSharkyTch::power` converts the stored value from `Unit::KW`.  On a
telegram whose power record decodes to 500 W the code reports
`power(W) = 500000` — a factor-1000 error — where the claim requires
`convert(500, W, W) = 500`. -/
theorem sharky_power_unit_code_bug :
    (MeterSharkyTch.init.processContent powerTelegram).1.power_w_ = 500 ∧
    (MeterSharkyTch.init.processContent powerTelegram).1.power MUnit.W = .ok 500000 ∧
    powerPerClaim (MeterSharkyTch.init.processContent powerTelegram).1 MUnit.W = .ok 500 ∧
    (MeterSharkyTch.init.processContent powerTelegram).1.power MUnit.W ≠
      powerPerClaim (MeterSharkyTch.init.processContent powerTelegram).1 MUnit.W := by
  have h : (MeterSharkyTch.init.processContent powerTelegram).1.power_w_ = 500 := by decide
  have hc : (MeterSharkyTch.init.processContent powerTelegram).1.power MUnit.W = .ok 500000 := by
    simp [MeterSharkyTch.power, assertQuantity, convert, convValue, MUnit.quantity,
      MUnit.scale, MUnit.affineOffset, h]
    norm_num
  have hs : powerPerClaim (MeterSharkyTch.init.processContent powerTelegram).1 MUnit.W =
      .ok 500 := by
    simp [powerPerClaim, assertQuantity, convert, convValue, MUnit.quantity,
      MUnit.scale, MUnit.affineOffset, h]
  exact ⟨h, hc, hs, by rw [hc, hs]; simp⟩

/-- One slot assignment into a raw string array (`argv[i] = …;`,
`env[i] = …;` in `shell.cc`); a slot holds a string or the NULL
terminator. -/
def writeSlot : List (Option String) → Nat → Option String → List (Option String)
  | [], _, _ => []
  | _ :: xs, 0, v => v :: xs
  | x :: xs, n + 1, v => x :: writeSlot xs n v

/-- The copy loop `for (auto &a : …) { arr[i] = a.c_str(); i++; }`:
writes the strings into consecutive slots starting at index `i`. -/
def writeLoop : List (Option String) → Nat → List String → List (Option String)
  | a, _, [] => a
  | a, i, e :: es => writeLoop (writeSlot a i (some e)) (i + 1) es

/-- Lines 30–39 of `shell.cc`: `argv = new const char*[args.size()+2]`
(fresh slots), `argv[0] = program`, the argument loop starting at index
1, then `argv[i] = NULL` at index `args.size()+1`. -/
def buildArgv (program : String) (args : List String) : List (Option String) :=
  let a := List.replicate (args.length + 2) none
  let a := writeSlot a 0 (some program)
  let a := writeLoop a 1 args
  writeSlot a (args.length + 1) none

/-- Lines 41–49 of `shell.cc`: `env = new const char*[envs.size()+1]`,
`env[0] = program` (sic), then `i = 0` and the environment loop starting
again at index 0, then `env[i] = NULL` at index `envs.size()`. -/
def buildEnv (program : String) (envs : List String) : List (Option String) :=
  let a := List.replicate (envs.length + 1) none
  let a := writeSlot a 0 (some program)
  let a := writeLoop a 0 envs
  writeSlot a envs.length none

/-- The observable actions of `invokeShell`, in program order: the
diagnostic `debug` lines, `warning`/`error`/`perror` messages, and the
system calls touching the child process. -/
inductive Event
  | debugMsg (msg : String)
  | warningMsg (msg : String)
  | errorMsg (msg : String)
  | perrorMsg (msg : String)
  | forkCall
  | closeFd (fd : Nat)
  | execCall (program : String) (argv : List (Option String)) (env : List (Option String))
  | waitpidCall (pid : Int)
  deriving DecidableEq, Repr

/-- The `waitpid` status word, abstracted to what the code inspects: a
normal exit carrying a return code, or an abnormal termination (e.g.
killed by a signal). -/
inductive Status
  | exited (rc : Nat)
  | signaled (sig : Nat)
  deriving DecidableEq, Repr

/-- Macro `WIFEXITED(status)`. -/
def WIFEXITED : Status → Bool
  | .exited _ => true
  | .signaled _ => false

/-- Macro `WEXITSTATUS(status)`; meaningful only when `WIFEXITED`. -/
def WEXITSTATUS : Status → Nat
  | .exited rc => rc
  | .signaled _ => 0

/-- The operating-system responses one call to `invokeShell` observes:
what `fork` returns (0 in the child, -1 on failure, the child pid in the
parent), whether `execvpe` succeeds in replacing the child's image, and
the status `waitpid` reports once the child has terminated. -/
structure ShellWorld where
  forkResult : Int
  execSucceeds : Bool
  childStatus : Status
  deriving DecidableEq, Repr

/-- The diagnostics `invokeShell` emits while building the argument and
environment arrays (lines 33–48), followed by the `fork` call (line
51). -/
def preEvents (program : String) (args envs : List String) : List Event :=
  Event.debugMsg ("exec \"" ++ program ++ "\"\n") ::
    (args.map fun a => Event.debugMsg ("arg \"" ++ a ++ "\"\n")) ++
    (envs.map fun e => Event.debugMsg ("env \"" ++ e ++ "\"\n")) ++
    [Event.forkCall]

/-- Function `invokeShell(program, args, envs)` (`shell.cc` lines 28–75): the
trace of events of the process at hand, paired with whether the call
returns normally to its caller.  In the child (`fork` returned 0) stdin
is closed and `execvpe` runs with the vectors built above; a successful
exec never returns, and a failed exec reaches `perror` and `error`.  In
the parent, `waitpid` blocks until the child terminates; a normal exit
with non-zero code is logged as a warning, and an abnormal termination is
ignored.  `error()` (from `util.h`, outside the visible slice) is
modelled from the spec as fatal and unrecoverable: the trace ends there
and the call does not return. -/
def invokeShell (program : String) (args envs : List String) (w : ShellWorld) :
    List Event × Bool :=
  let argv := buildArgv program args
  let env := buildEnv program envs
  let pre := preEvents program args envs
  if w.forkResult = 0 then
    if w.execSucceeds then
      (pre ++ [Event.closeFd 0, Event.execCall program argv env], false)
    else
      (pre ++ [Event.closeFd 0, Event.execCall program argv env,
               Event.perrorMsg ("Execvp failed:"),
               Event.errorMsg ("Invoking shell " ++ program ++ " failed!\n")], false)
  else if w.forkResult = -1 then
    (pre ++ [Event.errorMsg ("Could not fork!\n")], false)
  else
    let base := pre ++
      [Event.debugMsg ("waiting for child " ++ toString w.forkResult ++ ".\n"),
       Event.waitpidCall w.forkResult]
    if WIFEXITED w.childStatus then
      let rc := WEXITSTATUS w.childStatus
      if rc ≠ 0 then
        (base ++
          [Event.debugMsg (program ++ ": return code " ++ toString rc ++ "\n"),
           Event.warningMsg (program ++ " exited with non-zero return code: " ++
             toString rc ++ "\n")], true)
      else
        (base ++ [Event.debugMsg (program ++ ": return code " ++ toString rc ++ "\n")], true)
    else
      (base, true)

/-- The warning messages of a trace. -/
def warningsOf (tr : List Event) : List String :=
  tr.filterMap fun e => match e with
    | Event.warningMsg m => some m
    | _ => none

/-- The fatal error messages of a trace. -/
def errorsOf (tr : List Event) : List String :=
  tr.filterMap fun e => match e with
    | Event.errorMsg m => some m
    | _ => none

/-- A trace with the debug-only diagnostic lines removed: what the
operator and the operating system observe. -/
def nonDiagnostic (tr : List Event) : List Event :=
  tr.filter fun e => match e with
    | Event.debugMsg _ => false
    | _ => true

/-- Writing at index 0 overwrites the head slot. -/
theorem writeSlot_zero (x : Option String) (xs : List (Option String)) (v : Option String) :
    writeSlot (x :: xs) 0 v = v :: xs := rfl

/-- Writing at the index just past a prefix overwrites the head of the
suffix, whatever it held. -/
theorem writeSlot_append (pre : List (Option String)) (m : Option String)
    (rest : List (Option String)) (v : Option String) :
    writeSlot (pre ++ m :: rest) pre.length v = pre ++ v :: rest := by
  induction pre with
  | nil => rfl
  | cons x xs ih => simpa [writeSlot] using ih

/-- The copy loop starting just past a prefix fills the next
`es.length` slots with the strings in order and leaves the suffix
alone. -/
theorem writeLoop_append (es : List String) (pre mid suf : List (Option String))
    (hm : mid.length = es.length) :
    writeLoop (pre ++ mid ++ suf) pre.length es = pre ++ es.map some ++ suf := by
  induction es generalizing pre mid with
  | nil =>
    have : mid = [] := List.eq_nil_of_length_eq_zero hm
    simp [writeLoop, this]
  | cons e es ih =>
    cases mid with
    | nil => simp at hm
    | cons m mid =>
      have hm2 : mid.length = es.length := by simpa using hm
      calc writeLoop (pre ++ (m :: mid) ++ suf) pre.length (e :: es)
          = writeLoop (writeSlot (pre ++ m :: (mid ++ suf)) pre.length (some e))
              (pre.length + 1) es := by simp [writeLoop]
        _ = writeLoop ((pre ++ [some e]) ++ mid ++ suf) (pre ++ [some e]).length es := by
              rw [writeSlot_append]; simp
        _ = (pre ++ [some e]) ++ es.map some ++ suf := ih (pre ++ [some e]) mid hm2
        _ = pre ++ (e :: es).map some ++ suf := by simp

/-- The copy loop starting at index 1 of a head-plus-fresh-slots array. -/
theorem writeLoop_from_one (x : Option String) (xs : List String) :
    writeLoop (x :: List.replicate (xs.length + 1) (none : Option String)) 1 xs =
      x :: xs.map some ++ [none] := by
  have hd : x :: List.replicate (xs.length + 1) (none : Option String) =
      [x] ++ List.replicate xs.length none ++ [none] := by
    simp [List.replicate_succ']
  rw [hd]
  have h := writeLoop_append xs [x] (List.replicate xs.length none) [none] (by simp)
  simpa using h

/-- The argv array built by `invokeShell`: exactly
`[program, args…, NULL]`. -/
theorem buildArgv_eq (program : String) (args : List String) :
    buildArgv program args = some program :: args.map some ++ [none] := by
  simp only [buildArgv]
  rw [List.replicate_succ, writeSlot_zero, writeLoop_from_one]
  have h3 := writeSlot_append (some program :: args.map some) none [] none
  simpa using h3

/-- The environment array built by `invokeShell`: exactly
`envs… ++ [NULL]` — the `program` written into `env[0]` is always
overwritten before `execvpe` runs. -/
theorem buildEnv_eq (program : String) (envs : List String) :
    buildEnv program envs = envs.map some ++ [none] := by
  cases envs with
  | nil => rfl
  | cons e es =>
    simp only [buildEnv]
    rw [List.replicate_succ, writeSlot_zero]
    simp only [writeLoop, writeSlot_zero, List.length_cons, Nat.zero_add]
    rw [writeLoop_from_one]
    have h3 := writeSlot_append (some e :: es.map some) none [] none
    simpa using h3

/-- The pre-fork diagnostics contain no warning. -/
theorem warningsOf_preEvents (p : String) (args envs : List String) :
    warningsOf (preEvents p args envs) = [] := by
  simp [preEvents, warningsOf, List.filterMap_append, List.filterMap_map, Function.comp]

/-- The pre-fork diagnostics contain no fatal error. -/
theorem errorsOf_preEvents (p : String) (args envs : List String) :
    errorsOf (preEvents p args envs) = [] := by
  simp [preEvents, errorsOf, List.filterMap_append, List.filterMap_map, Function.comp]

/-- Lemma: `warningsOf` distributes over concatenation. -/
theorem warningsOf_append (l₁ l₂ : List Event) :
    warningsOf (l₁ ++ l₂) = warningsOf l₁ ++ warningsOf l₂ := by
  simp [warningsOf]

/-- Lemma: `errorsOf` distributes over concatenation. -/
theorem errorsOf_append (l₁ l₂ : List Event) :
    errorsOf (l₁ ++ l₂) = errorsOf l₁ ++ errorsOf l₂ := by
  simp [errorsOf]

/-- Lemma: `nonDiagnostic` distributes over concatenation. -/
theorem nonDiagnostic_append (l₁ l₂ : List Event) :
    nonDiagnostic (l₁ ++ l₂) = nonDiagnostic l₁ ++ nonDiagnostic l₂ := by
  simp [nonDiagnostic]

/-- A leading debug line is diagnostic only. -/
theorem nonDiagnostic_debug_cons (m : String) (l : List Event) :
    nonDiagnostic (Event.debugMsg m :: l) = nonDiagnostic l := by
  simp [nonDiagnostic]

/-- A run of debug lines is diagnostic only. -/
theorem nonDiagnostic_debug_map {α : Type} (f : α → String) (l : List α) :
    nonDiagnostic (l.map fun a => Event.debugMsg (f a)) = [] := by
  induction l with
  | nil => rfl
  | cons x xs ih => simp [nonDiagnostic, ih]

/-- Of the pre-fork events only the `fork` call itself is observable. -/
theorem nonDiagnostic_preEvents (p : String) (args envs : List String) :
    nonDiagnostic (preEvents p args envs) = [Event.forkCall] := by
  simp [preEvents, nonDiagnostic_append, nonDiagnostic_debug_cons, nonDiagnostic_debug_map]
  rfl

/-- C6: `invokeShell` spawns the child with the built argument and
environment vectors — `[program, args…, NULL]` and `envs… ++ [NULL]` —
closing the child's standard input immediately before `execvpe`, and the
parent performs the blocking `waitpid` on the child's pid before
returning. -/
theorem invokeShell_spawn_contract (program : String) (args envs : List String)
    (w : ShellWorld) :
    (w.forkResult = 0 → ∃ rest,
       (invokeShell program args envs w).1 =
         preEvents program args envs ++
           Event.closeFd 0 ::
             Event.execCall program (some program :: args.map some ++ [none])
               (envs.map some ++ [none]) :: rest) ∧
    (0 < w.forkResult →
       Event.waitpidCall w.forkResult ∈ (invokeShell program args envs w).1 ∧
       (invokeShell program args envs w).2 = true) := by
  constructor
  · intro h
    refine ⟨(if w.execSucceeds then [] else
        [Event.perrorMsg ("Execvp failed:"),
         Event.errorMsg ("Invoking shell " ++ program ++ " failed!\n")]), ?_⟩
    by_cases he : w.execSucceeds <;>
      simp [invokeShell, h, he, buildArgv_eq, buildEnv_eq]
  · intro h
    have h0 : ¬ w.forkResult = 0 := by omega
    have h1 : ¬ w.forkResult = -1 := by omega
    cases hst : w.childStatus with
    | exited rc =>
      by_cases hrc : rc = 0 <;>
        simp [invokeShell, h0, h1, hst, WIFEXITED, WEXITSTATUS, hrc]
    | signaled sig =>
      simp [invokeShell, h0, h1, hst, WIFEXITED]

/-- Witness for C6: a concrete child run (fork = 0) closes stdin and
execs with the exact vectors, and a concrete parent run (fork = 77)
reaches the blocking `waitpid` and returns. -/
theorem invokeShell_spawn_contract_witness :
    (∃ rest,
       (invokeShell ("meterhook") ["a1"] ["E=1"] ⟨0, true, Status.exited 0⟩).1 =
         preEvents ("meterhook") ["a1"] ["E=1"] ++
           Event.closeFd 0 ::
             Event.execCall ("meterhook") (some "meterhook" :: (["a1"].map some) ++ [none])
               ((["E=1"].map some) ++ [none]) :: rest) ∧
    (Event.waitpidCall 77 ∈
       (invokeShell ("meterhook") ["a1"] ["E=1"] ⟨77, true, Status.exited 0⟩).1 ∧
     (invokeShell ("meterhook") ["a1"] ["E=1"] ⟨77, true, Status.exited 0⟩).2 = true) :=
  ⟨(invokeShell_spawn_contract ("meterhook") ["a1"] ["E=1"] ⟨0, true, .exited 0⟩).1 rfl,
   (invokeShell_spawn_contract ("meterhook") ["a1"] ["E=1"] ⟨77, true, .exited 0⟩).2
     (by norm_num)⟩

/-- C7: when the child was created and exits normally, a non-zero return
code produces exactly one warning, naming the program and the code, and
`invokeShell` still returns normally; a zero exit produces no warning. -/
theorem invokeShell_nonzero_exit_warning (program : String) (args envs : List String)
    (w : ShellWorld) (h : 0 < w.forkResult) :
    (∀ rc : Nat, w.childStatus = Status.exited rc → rc ≠ 0 →
       warningsOf (invokeShell program args envs w).1 =
         [program ++ " exited with non-zero return code: " ++ toString rc ++ "\n"] ∧
       (invokeShell program args envs w).2 = true) ∧
    (w.childStatus = Status.exited 0 →
       warningsOf (invokeShell program args envs w).1 = [] ∧
       (invokeShell program args envs w).2 = true) := by
  have h0 : ¬ w.forkResult = 0 := by omega
  have h1 : ¬ w.forkResult = -1 := by omega
  constructor
  · intro rc hst hrc
    have htr : (invokeShell program args envs w).1 =
        preEvents program args envs ++
          [Event.debugMsg ("waiting for child " ++ toString w.forkResult ++ ".\n"),
           Event.waitpidCall w.forkResult,
           Event.debugMsg (program ++ ": return code " ++ toString rc ++ "\n"),
           Event.warningMsg (program ++ " exited with non-zero return code: " ++
             toString rc ++ "\n")] := by
      simp [invokeShell, h0, h1, hst, WIFEXITED, WEXITSTATUS, hrc]
    refine ⟨?_, by simp [invokeShell, h0, h1, hst, WIFEXITED, WEXITSTATUS, hrc]⟩
    rw [htr, warningsOf_append, warningsOf_preEvents]
    rfl
  · intro hst
    have htr : (invokeShell program args envs w).1 =
        preEvents program args envs ++
          [Event.debugMsg ("waiting for child " ++ toString w.forkResult ++ ".\n"),
           Event.waitpidCall w.forkResult,
           Event.debugMsg (program ++ ": return code " ++ toString (0 : Nat) ++ "\n")] := by
      simp [invokeShell, h0, h1, hst, WIFEXITED, WEXITSTATUS]
    refine ⟨?_, by simp [invokeShell, h0, h1, hst, WIFEXITED, WEXITSTATUS]⟩
    rw [htr, warningsOf_append, warningsOf_preEvents]
    rfl

/-- Witness for C7: with child pid 77, exit code 3 yields exactly the one
warning; exit code 0 yields none. -/
theorem invokeShell_nonzero_exit_warning_witness :
    warningsOf (invokeShell ("meterhook") ["a1"] ["E=1"] ⟨77, true, Status.exited 3⟩).1 =
      ["meterhook" ++ " exited with non-zero return code: " ++ toString (3 : Nat) ++ "\n"] ∧
    warningsOf (invokeShell ("meterhook") ["a1"] ["E=1"] ⟨77, true, Status.exited 0⟩).1 = [] :=
  ⟨((invokeShell_nonzero_exit_warning ("meterhook") ["a1"] ["E=1"] ⟨77, true, .exited 3⟩
      (by norm_num)).1 3 rfl (by norm_num)).1,
   ((invokeShell_nonzero_exit_warning ("meterhook") ["a1"] ["E=1"] ⟨77, true, .exited 0⟩
      (by norm_num)).2 rfl).1⟩

/-- C8: a fork failure, and an exec failure in the child, are fatal: the
error channel carries the source's message and `invokeShell` does not
return normally (the `error()` collaborator is modelled from the spec as
fatal and unrecoverable). -/
theorem invokeShell_spawn_failure_fatal (program : String) (args envs : List String)
    (w : ShellWorld) :
    (w.forkResult = -1 →
       errorsOf (invokeShell program args envs w).1 = ["Could not fork!\n"] ∧
       (invokeShell program args envs w).2 = false) ∧
    (w.forkResult = 0 → w.execSucceeds = false →
       errorsOf (invokeShell program args envs w).1 =
         ["Invoking shell " ++ program ++ " failed!\n"] ∧
       (invokeShell program args envs w).2 = false) := by
  constructor
  · intro h
    have h0 : ¬ w.forkResult = 0 := by omega
    have htr : (invokeShell program args envs w).1 =
        preEvents program args envs ++ [Event.errorMsg ("Could not fork!\n")] := by
      simp [invokeShell, h, h0]
    refine ⟨?_, by simp [invokeShell, h, h0]⟩
    rw [htr, errorsOf_append, errorsOf_preEvents]
    rfl
  · intro h he
    have htr : (invokeShell program args envs w).1 =
        preEvents program args envs ++
          [Event.closeFd 0,
           Event.execCall program (buildArgv program args) (buildEnv program envs),
           Event.perrorMsg ("Execvp failed:"),
           Event.errorMsg ("Invoking shell " ++ program ++ " failed!\n")] := by
      simp [invokeShell, h, he]
    refine ⟨?_, by simp [invokeShell, h, he]⟩
    rw [htr, errorsOf_append, errorsOf_preEvents]
    rfl

/-- Witness for C8: a concrete failed fork reports the fatal fork error;
a concrete failed exec reports the fatal invocation error. -/
theorem invokeShell_spawn_failure_fatal_witness :
    (errorsOf (invokeShell ("meterhook") ["a1"] ["E=1"] ⟨-1, true, Status.exited 0⟩).1 =
       ["Could not fork!\n"] ∧
     (invokeShell ("meterhook") ["a1"] ["E=1"] ⟨-1, true, Status.exited 0⟩).2 = false) ∧
    (errorsOf (invokeShell ("meterhook") ["a1"] ["E=1"] ⟨0, false, Status.exited 0⟩).1 =
       ["Invoking shell " ++ "meterhook" ++ " failed!\n"] ∧
     (invokeShell ("meterhook") ["a1"] ["E=1"] ⟨0, false, Status.exited 0⟩).2 = false) :=
  ⟨(invokeShell_spawn_failure_fatal ("meterhook") ["a1"] ["E=1"] ⟨-1, true, .exited 0⟩).1 rfl,
   (invokeShell_spawn_failure_fatal ("meterhook") ["a1"] ["E=1"] ⟨0, false, .exited 0⟩).2 rfl rfl⟩

/-- C10: when the child terminates abnormally (`WIFEXITED` false), the
parent emits no warning and no error and returns normally exactly as on a
zero exit: apart from one debug-only diagnostic line, the observable
trace is identical to the zero-exit trace. -/
theorem invokeShell_abnormal_termination_silent (program : String) (args envs : List String)
    (w : ShellWorld) (sig : Nat) (h : 0 < w.forkResult)
    (hs : w.childStatus = Status.signaled sig) :
    warningsOf (invokeShell program args envs w).1 = [] ∧
    errorsOf (invokeShell program args envs w).1 = [] ∧
    (invokeShell program args envs w).2 = true ∧
    (invokeShell program args envs w).2 =
      (invokeShell program args envs ⟨w.forkResult, w.execSucceeds, Status.exited 0⟩).2 ∧
    nonDiagnostic (invokeShell program args envs w).1 =
      nonDiagnostic (invokeShell program args envs
        ⟨w.forkResult, w.execSucceeds, Status.exited 0⟩).1 := by
  have h0 : ¬ w.forkResult = 0 := by omega
  have h1 : ¬ w.forkResult = -1 := by omega
  have htr : (invokeShell program args envs w).1 =
      preEvents program args envs ++
        [Event.debugMsg ("waiting for child " ++ toString w.forkResult ++ ".\n"),
         Event.waitpidCall w.forkResult] := by
    simp [invokeShell, h0, h1, hs, WIFEXITED]
  have htr0 : (invokeShell program args envs
      ⟨w.forkResult, w.execSucceeds, Status.exited 0⟩).1 =
      preEvents program args envs ++
        [Event.debugMsg ("waiting for child " ++ toString w.forkResult ++ ".\n"),
         Event.waitpidCall w.forkResult,
         Event.debugMsg (program ++ ": return code " ++ toString (0 : Nat) ++ "\n")] := by
    simp [invokeShell, h0, h1, WIFEXITED, WEXITSTATUS]
  refine ⟨?_, ?_, ?_, ?_, ?_⟩
  · rw [htr, warningsOf_append, warningsOf_preEvents]; rfl
  · rw [htr, errorsOf_append, errorsOf_preEvents]; rfl
  · simp [invokeShell, h0, h1, hs, WIFEXITED]
  · simp [invokeShell, h0, h1, hs, WIFEXITED, WEXITSTATUS]
  · rw [htr, htr0]
    simp only [nonDiagnostic_append, nonDiagnostic_preEvents]
    rfl

/-- Witness for C10: a child killed by signal 9 against a zero exit, at
pid 77. -/
theorem invokeShell_abnormal_termination_silent_witness :
    warningsOf (invokeShell ("meterhook") ["a1"] ["E=1"] ⟨77, true, Status.signaled 9⟩).1 = [] ∧
    errorsOf (invokeShell ("meterhook") ["a1"] ["E=1"] ⟨77, true, Status.signaled 9⟩).1 = [] ∧
    nonDiagnostic (invokeShell ("meterhook") ["a1"] ["E=1"] ⟨77, true, Status.signaled 9⟩).1 =
      nonDiagnostic (invokeShell ("meterhook") ["a1"] ["E=1"] ⟨77, true, Status.exited 0⟩).1 := by
  have h := invokeShell_abnormal_termination_silent ("meterhook") ["a1"] ["E=1"]
    ⟨77, true, Status.signaled 9⟩ 9 (by norm_num) rfl
  exact ⟨h.1, h.2.1, h.2.2.2.2⟩

/-- C9: the argument vector handed to `execvpe` is exactly
`[program, args…, NULL]`, and the environment vector is exactly
`envs… ++ [NULL]`: the program name written into `env[0]` is always
overwritten — by the first entry of `envs`, or by the NULL terminator
when `envs` is empty — and never reaches the child's environment. -/
theorem invokeShell_argv_env_layout (program : String) (args envs : List String) :
    buildArgv program args = some program :: args.map some ++ [none] ∧
    buildEnv program envs = envs.map some ++ [none] ∧
    buildEnv program [] = [none] :=
  ⟨buildArgv_eq program args, buildEnv_eq program envs, rfl⟩
